import Mathlib

/-!
Shallow embedding of the modelwrangler repository.

The configuration objects, the graph-assembly builder, the training
orchestrator and the persistence helpers are translated from the Python
sources (model_wrangler/model_wrangler.py, modelwrangler/tf_models.py,
modelwrangler/corral/dense_autoencoder.py,
modelwrangler/corral/convolutional_autoencoder.py).  Modules that the
sources import but that are absent from the snapshot (layer_configs,
tf_ops, dataset_managers, the modelwrangler.model_wrangler facade) are
modelled from the design specification and carry a doc comment saying so.
-/

/-- Primitive JSON-serializable value: the payload types that occur as
attribute values of the parameter objects (None, bool, int, float, str,
list of int).  Floats are represented as rationals. -/
inductive PrimVal
  | pNone
  | pBool (b : Bool)
  | pNat (n : Nat)
  | pRat (q : ℚ)
  | pStr (s : String)
  | pNatList (l : List Nat)
deriving DecidableEq

/-- Attribute value as stored in the params JSON: a primitive, or a flat
mapping (the serialized form of a LayerConfig, see
BaseNetworkParams.save in tf_models.py). -/
inductive Val
  | prim (v : PrimVal)
  | vDict (d : List (String × PrimVal))
deriving DecidableEq

/-- Lookup in a Python dict modelled as an association list.  Mirrors
kwargs.get: the stored value is returned when the key is present. -/
def lookupP (kw : List (String × PrimVal)) (k : String) : Option PrimVal :=
  (kw.find? (fun e => e.1 == k)).map (fun e => e.2)

/-- Lookup in the top-level params dictionary. -/
def lookupV (kw : List (String × Val)) (k : String) : Option Val :=
  (kw.find? (fun e => e.1 == k)).map (fun e => e.2)

/-- Read an optional string field (kwargs.get with a default).  A present
None is kept; an absent key falls back to the default.  A value of an
unexpected type also falls back to the default; that case is unreachable
from the serializer below and only makes the function total. -/
def getOptStrP (kw : List (String × PrimVal)) (k : String) (d : Option String) :
    Option String :=
  match lookupP kw k with
  | some (PrimVal.pStr s) => some s
  | some PrimVal.pNone => none
  | _ => d

/-- Read a boolean field with a default. -/
def getBoolP (kw : List (String × PrimVal)) (k : String) (d : Bool) : Bool :=
  match lookupP kw k with
  | some (PrimVal.pBool b) => b
  | _ => d

/-- Read an optional numeric field (such as dropout_rate) with a default. -/
def getOptRatP (kw : List (String × PrimVal)) (k : String) (d : Option ℚ) :
    Option ℚ :=
  match lookupP kw k with
  | some (PrimVal.pRat q) => some q
  | some (PrimVal.pNat n) => some (n : ℚ)
  | some PrimVal.pNone => none
  | _ => d

/-- Read a natural-number field with a default. -/
def getNatP (kw : List (String × PrimVal)) (k : String) (d : Nat) : Nat :=
  match lookupP kw k with
  | some (PrimVal.pNat n) => n
  | _ => d

/-- Modelled from the spec: the module layer_configs imported by
tf_models.py is not part of the repository snapshot.  Per spec section 3 a
LayerOption holds an activation kind, a bias flag, a regularization kind,
a batch-normalization flag and an optional dropout rate, every field with
a default, where None and 0 both mean that the dropout stage is disabled. -/
structure LayerConfig where
  activation : Option String
  bias : Bool
  act_reg : Option String
  batchnorm : Bool
  dropout_rate : Option ℚ
deriving DecidableEq

/-- Modelled from the spec: construction of a LayerConfig from a mapping of
named overrides; every absent field resolves to its default (spec section
4.1). -/
def LayerConfig.ofKwargs (kw : List (String × PrimVal)) : LayerConfig :=
  { activation := getOptStrP kw "activation" (some "relu")
  , bias := getBoolP kw "bias" true
  , act_reg := getOptStrP kw "act_reg" none
  , batchnorm := getBoolP kw "batchnorm" false
  , dropout_rate := getOptRatP kw "dropout_rate" none }

/-- Optional string attribute as it appears in the instance dictionary. -/
def optStrVal : Option String → PrimVal
  | none => PrimVal.pNone
  | some s => PrimVal.pStr s

/-- Optional rational attribute as it appears in the instance dictionary. -/
def optRatVal : Option ℚ → PrimVal
  | none => PrimVal.pNone
  | some q => PrimVal.pRat q

/-- The plain field mapping of a LayerConfig (its instance dictionary),
which is what BaseNetworkParams.save writes in place of the object. -/
def LayerConfig.toDict (c : LayerConfig) : List (String × PrimVal) :=
  [("activation", optStrVal c.activation),
   ("bias", PrimVal.pBool c.bias),
   ("act_reg", optStrVal c.act_reg),
   ("batchnorm", PrimVal.pBool c.batchnorm),
   ("dropout_rate", optRatVal c.dropout_rate)]

/-- Modelled from the spec: the convolutional LayerOption subtype adds a
kernel size, strides and an optional pool size (spec section 3); pool_size
of 0 or None means that no pooling stage is assembled. -/
structure ConvLayerConfig where
  activation : Option String
  bias : Bool
  act_reg : Option String
  batchnorm : Bool
  dropout_rate : Option ℚ
  kernel : Nat
  strides : Nat
  pool_size : Option Nat
deriving DecidableEq

/-- Python truthiness of an optional rational field: None and 0 are falsy. -/
def truthyRat : Option ℚ → Bool
  | none => false
  | some q => decide (q ≠ 0)

/-- Python truthiness of an optional natural field: None and 0 are falsy. -/
def truthyNat : Option Nat → Bool
  | none => false
  | some n => decide (n ≠ 0)

/-- One primitive operation appended to the layer stack by the builder
methods of BaseNetwork (tf_models.py). -/
inductive StageOp
  | transform
  | batchnorm
  | pool
  | unpool
  | unstride
  | dropout
deriving DecidableEq

/-- Operation stack assembled by BaseNetwork.make_dense_layer (tf_models.py
lines 288 to 328): the layer_stack starts with the dense transform, then
appends batch normalization when configured, then dropout when the rate is
truthy; the layer returned is the last element of the stack. -/
def make_dense_layer_ops (c : LayerConfig) : List StageOp :=
  let stack := [StageOp.transform]
  let stack := if c.batchnorm then stack ++ [StageOp.batchnorm] else stack
  let stack := if truthyRat c.dropout_rate then stack ++ [StageOp.dropout] else stack
  stack

/-- Operation stack assembled by BaseNetwork.make_conv_layer (tf_models.py
lines 360 to 404): convolution, then batch normalization when configured,
then max pooling when pool_size is truthy, then dropout when the rate is
truthy. -/
def make_conv_layer_ops (c : ConvLayerConfig) : List StageOp :=
  let stack := [StageOp.transform]
  let stack := if c.batchnorm then stack ++ [StageOp.batchnorm] else stack
  let stack := if truthyNat c.pool_size then stack ++ [StageOp.pool] else stack
  let stack := if truthyRat c.dropout_rate then stack ++ [StageOp.dropout] else stack
  stack

/-- Operation stack assembled by BaseNetwork.make_deconv_layer (tf_models.py
lines 406 to 458): transposed convolution, then batch normalization when
configured, then un-pooling when pool_size is truthy, then un-striding when
strides is truthy, then dropout when the rate is truthy. -/
def make_deconv_layer_ops (c : ConvLayerConfig) : List StageOp :=
  let stack := [StageOp.transform]
  let stack := if c.batchnorm then stack ++ [StageOp.batchnorm] else stack
  let stack := if truthyNat c.pool_size then stack ++ [StageOp.unpool] else stack
  let stack := if c.strides ≠ 0 then stack ++ [StageOp.unstride] else stack
  let stack := if truthyRat c.dropout_rate then stack ++ [StageOp.dropout] else stack
  stack

/-- Claim-side presence predicate for dense layers: which stages of the
canonical dense order the configuration enables. -/
def densePresent (c : LayerConfig) : StageOp → Bool
  | StageOp.transform => true
  | StageOp.batchnorm => c.batchnorm
  | StageOp.dropout => truthyRat c.dropout_rate
  | _ => false

/-- Claim-side presence predicate for convolutional encode layers. -/
def convPresent (c : ConvLayerConfig) : StageOp → Bool
  | StageOp.transform => true
  | StageOp.batchnorm => c.batchnorm
  | StageOp.pool => truthyNat c.pool_size
  | StageOp.dropout => truthyRat c.dropout_rate
  | _ => false

/-- Claim-side presence predicate for decode (deconvolution) layers. -/
def deconvPresent (c : ConvLayerConfig) : StageOp → Bool
  | StageOp.transform => true
  | StageOp.batchnorm => c.batchnorm
  | StageOp.unpool => truthyNat c.pool_size
  | StageOp.unstride => decide (c.strides ≠ 0)
  | StageOp.dropout => truthyRat c.dropout_rate
  | _ => false

/-- Symbolic tensor handle: enough of the computation graph to record the
wiring that the assembly code produces.  Shapes follow get_shape().as_list()
with None for the batch dimension. -/
inductive Tensor
  | placeholder (name : String) (shape : List (Option Nat))
  | denseStack (label : String) (units : Nat) (cfg : LayerConfig) (input : Tensor)
  | denseRaw (name : String) (units : Nat) (input : Tensor)
  | fitToShape (input : Tensor) (shape : List (Option Nat))
deriving DecidableEq

/-- Declared shape of a tensor handle: a dense layer replaces the last
dimension with its unit count, fit_to_shape forces the given shape. -/
def Tensor.shape : Tensor → List (Option Nat)
  | Tensor.placeholder _ s => s
  | Tensor.denseStack _ u _ t => (Tensor.shape t).dropLast ++ [some u]
  | Tensor.denseRaw _ u t => (Tensor.shape t).dropLast ++ [some u]
  | Tensor.fitToShape _ s => s

/-- Scalar loss handle with the two tensors it is wired to. -/
inductive LossNode
  | mse (target output : Tensor)
  | sigmoidCe (target output : Tensor)
deriving DecidableEq

/-- One named stage on the path from the input placeholder to a tensor. -/
inductive SpineNode
  | inputNode (name : String) (shape : List (Option Nat))
  | denseNode (label : String) (units : Nat) (cfg : LayerConfig)
  | rawDenseNode (name : String) (units : Nat)
  | fitNode (shape : List (Option Nat))
deriving DecidableEq

/-- The chain of stages from the original placeholder to a tensor. -/
def Tensor.spine : Tensor → List SpineNode
  | Tensor.placeholder nm s => [SpineNode.inputNode nm s]
  | Tensor.denseStack lbl u cfg t => Tensor.spine t ++ [SpineNode.denseNode lbl u cfg]
  | Tensor.denseRaw nm u t => Tensor.spine t ++ [SpineNode.rawDenseNode nm u]
  | Tensor.fitToShape t s => Tensor.spine t ++ [SpineNode.fitNode s]

/-- os.path.join for the path computations of the params objects. -/
def joinPath (a b : String) : String := a ++ "/" ++ b

/-- Read a boolean attribute from the top-level kwargs. -/
def getBool (kw : List (String × Val)) (k : String) (d : Bool) : Bool :=
  match lookupV kw k with
  | some (Val.prim (PrimVal.pBool b)) => b
  | _ => d

/-- Read a natural-number attribute from the top-level kwargs. -/
def getNat (kw : List (String × Val)) (k : String) (d : Nat) : Nat :=
  match lookupV kw k with
  | some (Val.prim (PrimVal.pNat n)) => n
  | _ => d

/-- Read a rational attribute from the top-level kwargs. -/
def getRat (kw : List (String × Val)) (k : String) (d : ℚ) : ℚ :=
  match lookupV kw k with
  | some (Val.prim (PrimVal.pRat q)) => q
  | some (Val.prim (PrimVal.pNat n)) => (n : ℚ)
  | _ => d

/-- Read a string attribute from the top-level kwargs. -/
def getStr (kw : List (String × Val)) (k : String) (d : String) : String :=
  match lookupV kw k with
  | some (Val.prim (PrimVal.pStr s)) => s
  | _ => d

/-- Read a list-of-int attribute from the top-level kwargs. -/
def getNatList (kw : List (String × Val)) (k : String) (d : List Nat) : List Nat :=
  match lookupV kw k with
  | some (Val.prim (PrimVal.pNatList l)) => l
  | _ => d

/-- Read a nested mapping attribute (a per-stage option dictionary). -/
def getDict (kw : List (String × Val)) (k : String) (d : List (String × PrimVal)) :
    List (String × PrimVal) :=
  match lookupV kw k with
  | some (Val.vDict e) => e
  | _ => d

/-- The attribute set of DenseAutoencoderParams: the REQUIRED_ATTRIBUTES of
BaseNetworkParams (tf_models.py lines 67 to 75), the MODEL_SPECIFIC_ATTRIBUTES
of DenseAutoencoderParams (dense_autoencoder.py lines 20 to 40) and the
DATASET_MANAGER_PARAMS entry (tf_models.py lines 63 to 65), with the four
per-stage option fields promoted to LayerConfig values. -/
structure DenseAutoencoderParams where
  verb : Bool
  path : String
  meta_filename : String
  tb_log_path : String
  batch_size : Nat
  num_epochs : Nat
  learning_rate : ℚ
  name : String
  in_size : Nat
  encode_nodes : List Nat
  encode_params : LayerConfig
  decode_nodes : List Nat
  decode_params : LayerConfig
  bottleneck_dim : Nat
  bottleneck_params : LayerConfig
  output_params : LayerConfig
  holdout_prop : ℚ
deriving DecidableEq

/-- Class-level default mapping for the encode stage (dense_autoencoder.py). -/
def encodeDefaultDict : List (String × PrimVal) :=
  [("dropout_rate", PrimVal.pRat (1 / 10))]

/-- Class-level default mapping for the decode stage (dense_autoencoder.py). -/
def decodeDefaultDict : List (String × PrimVal) :=
  [("dropout_rate", PrimVal.pNone)]

/-- Class-level default mapping for the bottleneck stage. -/
def bottleneckDefaultDict : List (String × PrimVal) :=
  [("dropout_rate", PrimVal.pNone)]

/-- Class-level default mapping for the output stage. -/
def outputDefaultDict : List (String × PrimVal) :=
  [("dropout_rate", PrimVal.pNone), ("activation", PrimVal.pNone),
   ("act_reg", PrimVal.pNone)]

/-- BaseNetworkParams.__init__ specialized to DenseAutoencoderParams
(tf_models.py lines 85 to 112): every attribute is taken from kwargs or its
class default; path defaults to curdir/name once name is known;
meta_filename and tb_log_path are derived from path unconditionally; the
per-stage option mappings are promoted to LayerConfig at the end. -/
def DenseAutoencoderParams.init (kw : List (String × Val)) : DenseAutoencoderParams :=
  let name := getStr kw "name" "autoenc"
  let path := getStr kw "path" (joinPath "." name)
  { verb := getBool kw "verb" true
  , path := path
  , meta_filename := joinPath path "saver-meta"
  , tb_log_path := joinPath path "tb_log"
  , batch_size := getNat kw "batch_size" 256
  , num_epochs := getNat kw "num_epochs" 3
  , learning_rate := getRat kw "learning_rate" (1 / 10000)
  , name := name
  , in_size := getNat kw "in_size" 10
  , encode_nodes := getNatList kw "encode_nodes" [5, 5]
  , encode_params := LayerConfig.ofKwargs (getDict kw "encode_params" encodeDefaultDict)
  , decode_nodes := getNatList kw "decode_nodes" [5, 5]
  , decode_params := LayerConfig.ofKwargs (getDict kw "decode_params" decodeDefaultDict)
  , bottleneck_dim := getNat kw "bottleneck_dim" 3
  , bottleneck_params :=
      LayerConfig.ofKwargs (getDict kw "bottleneck_params" bottleneckDefaultDict)
  , output_params := LayerConfig.ofKwargs (getDict kw "output_params" outputDefaultDict)
  , holdout_prop := getRat kw "holdout_prop" (1 / 10) }

/-- BaseNetworkParams.save (tf_models.py lines 114 to 128) as a value map:
the dumped dictionary holds every attribute, with each LayerConfig entry
replaced by its plain field mapping before the json dump. -/
def DenseAutoencoderParams.save_dump (p : DenseAutoencoderParams) : List (String × Val) :=
  [("verb", Val.prim (PrimVal.pBool p.verb)),
   ("path", Val.prim (PrimVal.pStr p.path)),
   ("meta_filename", Val.prim (PrimVal.pStr p.meta_filename)),
   ("tb_log_path", Val.prim (PrimVal.pStr p.tb_log_path)),
   ("batch_size", Val.prim (PrimVal.pNat p.batch_size)),
   ("num_epochs", Val.prim (PrimVal.pNat p.num_epochs)),
   ("learning_rate", Val.prim (PrimVal.pRat p.learning_rate)),
   ("name", Val.prim (PrimVal.pStr p.name)),
   ("in_size", Val.prim (PrimVal.pNat p.in_size)),
   ("encode_nodes", Val.prim (PrimVal.pNatList p.encode_nodes)),
   ("encode_params", Val.vDict (LayerConfig.toDict p.encode_params)),
   ("decode_nodes", Val.prim (PrimVal.pNatList p.decode_nodes)),
   ("decode_params", Val.vDict (LayerConfig.toDict p.decode_params)),
   ("bottleneck_dim", Val.prim (PrimVal.pNat p.bottleneck_dim)),
   ("bottleneck_params", Val.vDict (LayerConfig.toDict p.bottleneck_params)),
   ("output_params", Val.vDict (LayerConfig.toDict p.output_params)),
   ("holdout_prop", Val.prim (PrimVal.pRat p.holdout_prop))]

/-- The chain of dense stages built by the enumerate loops of
DenseAutoencoderModel.setup_layers: each entry of the node list adds one
dense stage labelled with its index on top of the running tensor. -/
def buildDenseChain (cfg : LayerConfig) (lbl : String) :
    List Nat → Nat → Tensor → Tensor
  | [], _, t => t
  | n :: rest, idx, t =>
      buildDenseChain cfg lbl rest (idx + 1)
        (Tensor.denseStack (lbl ++ toString idx) n cfg t)

/-- DenseAutoencoderModel.setup_layers (dense_autoencoder.py lines 51 to
121): input placeholder, encode stages over encode_nodes, bottleneck stage,
decode stages over decode_nodes, an output stage of in_size units fitted to
the declared shape of the target placeholder, and a mean-squared-error loss
between target and output.  The fit_to_shape and loss_mse helpers live in
the absent tf_ops module and are kept symbolic, per spec sections 4.3
and 6. -/
def DenseAutoencoderModel.setup_layers (p : DenseAutoencoderParams) :
    Tensor × Tensor × Tensor × LossNode :=
  let in_layer := Tensor.placeholder "input" [none, some p.in_size]
  let encode_last := buildDenseChain p.encode_params "encode_" p.encode_nodes 0 in_layer
  let bottleneck :=
    Tensor.denseStack "bottleneck" p.bottleneck_dim p.bottleneck_params encode_last
  let decode_last := buildDenseChain p.decode_params "decode_" p.decode_nodes 0 bottleneck
  let target_layer := Tensor.placeholder "target" (Tensor.shape in_layer)
  let out_layer :=
    Tensor.fitToShape
      (Tensor.denseStack "output_layer" p.in_size p.output_params decode_last)
      (Tensor.shape target_layer)
  (in_layer, out_layer, target_layer, LossNode.mse target_layer out_layer)

/-- The four graph handles owned by an assembled network (spec section 3). -/
structure AssembledDense where
  input : Tensor
  output : Tensor
  target : Tensor
  loss : LossNode
deriving DecidableEq

/-- Modelled from the spec: the modelwrangler.model_wrangler facade that
DenseAutoencoder subclasses is absent from the snapshot.  Per spec sections
2 and 3 the wrangler owns one params object and one assembled network whose
handles come from the setup_layers of the architecture class passed as
model_class (dense_autoencoder.py lines 124 to 131). -/
def DenseAutoencoder.construct (p : DenseAutoencoderParams) : AssembledDense :=
  let h := DenseAutoencoderModel.setup_layers p
  { input := h.1, output := h.2.1, target := h.2.2.1, loss := h.2.2.2 }

/-- BaseNetwork.setup_layers (tf_models.py lines 153 to 176).  The dense
projection is applied to the attribute self.input, which BaseNetwork.__init__
only assigns after setup_layers returns, so the attribute is passed
explicitly here; the loss is wired to the target placeholder and the input
placeholder. -/
def BaseNetwork.setup_layers (self_input : Option Tensor) (in_size out_size : Nat) :
    Except String (Tensor × Tensor × Tensor × LossNode) :=
  let in_layer := Tensor.placeholder "input" [none, some in_size]
  match self_input with
  | none => Except.error "AttributeError: input"
  | some attr =>
      let out_layer := Tensor.denseRaw "output" out_size attr
      let target_layer := Tensor.placeholder "target" [none, some out_size]
      Except.ok (in_layer, out_layer, target_layer,
        LossNode.sigmoidCe target_layer in_layer)

/-- BaseNetwork.__init__ (tf_models.py lines 493 to 511) as far as layer
assembly is concerned: self.input does not exist yet when setup_layers
runs. -/
def BaseNetwork.construct (in_size out_size : Nat) :
    Except String (Tensor × Tensor × Tensor × LossNode) :=
  BaseNetwork.setup_layers none in_size out_size

/-- Observable action of the training orchestrator
(model_wrangler/model_wrangler.py). -/
inductive TrainEvent
  | datasetCreated (holdout_prop : ℚ) (categorical : Bool)
  | balancedBatchesRequested (batch_size : Nat)
  | trainStep (is_training : Bool)
  | holdoutEval (batch_counter : Nat) (is_training : Bool)
  | checkpointSaved (tag : Nat)
deriving DecidableEq

/-- Batch loop of ModelWrangler._run_epoch (lines 205 to 233): one optimizer
step per batch with the training flag true, the batch counter incremented
after the step, and a holdout score (training flag false, see
ModelWrangler.score) logged whenever the counter is a multiple of 100.  The
batch iterator comes from the absent dataset_managers module and is
abstracted by the number of batches it yields (spec section 6 describes it
as a lazy sequence of batch pairs). -/
def run_epoch_from (counter : Nat) : Nat → List TrainEvent
  | 0 => []
  | Nat.succ rem =>
      TrainEvent.trainStep true ::
        ((if (counter + 1) % 100 = 0
            then [TrainEvent.holdoutEval (counter + 1) false] else []) ++
          run_epoch_from (counter + 1) rem)

/-- ModelWrangler._run_epoch: requests class-balanced batches of the
configured batch size, then runs the batch loop from counter zero. -/
def ModelWrangler.run_epoch (batch_size nb : Nat) : List TrainEvent :=
  TrainEvent.balancedBatchesRequested batch_size :: run_epoch_from 0 nb

/-- Epoch loop of ModelWrangler.train (lines 246 to 251): for each epoch
index in range(num_epoch), one epoch of batches followed by a checkpoint
tagged with that epoch index (self.save(epoch)). -/
def train_epochs (batch_size nb : Nat) : Nat → Nat → List TrainEvent
  | _, 0 => []
  | epoch, Nat.succ rem =>
      (ModelWrangler.run_epoch batch_size nb ++ [TrainEvent.checkpointSaved epoch]) ++
        train_epochs batch_size nb (epoch + 1) rem

/-- ModelWrangler.train (lines 235 to 254): wraps the data in a
DatasetManager with holdout_prop 0.1 and categorical True, then runs the
epoch loop. -/
def ModelWrangler.train (num_epoch batch_size nb : Nat) : List TrainEvent :=
  TrainEvent.datasetCreated (1 / 10) true :: train_epochs batch_size nb 0 num_epoch

/-- Checkpoint tag of an event, for collecting the checkpoint trail. -/
def checkpointTag : TrainEvent → Option Nat
  | TrainEvent.checkpointSaved t => some t
  | _ => none

/-- Recognizes a holdout evaluation event. -/
def isHoldoutEval : TrainEvent → Bool
  | TrainEvent.holdoutEval _ _ => true
  | _ => false

/-- Recognizes a holdout evaluation that violates the claimed schedule for
an epoch of nb batches: flag not false, counter not a positive multiple of
100, or counter beyond the number of batches. -/
def isBadHoldoutEval (nb : Nat) : TrainEvent → Bool
  | TrainEvent.holdoutEval k fl =>
      fl || decide (k % 100 ≠ 0) || decide (k = 0) || decide (nb < k)
  | _ => false

/-- Outcome of a Python call: a normal return with the executed events and
printed lines, or a propagated exception. -/
inductive PyOutcome
  | normalReturn (events : List TrainEvent) (printed : List String)
  | raised (events : List TrainEvent)
deriving DecidableEq

/-- True when the outcome is a propagated exception. -/
def PyOutcome.isRaise : PyOutcome → Bool
  | PyOutcome.raised _ => true
  | _ => false

/-- Events that were executed before the call ended. -/
def PyOutcome.events : PyOutcome → List TrainEvent
  | PyOutcome.normalReturn evs _ => evs
  | PyOutcome.raised evs => evs

/-- Execution of the try body of ModelWrangler.train under a possible
KeyboardInterrupt: when the interrupt arrives after k events, the body
stops there with the interrupt pending; otherwise the body runs to the
end. -/
def run_body (body : List TrainEvent) : Option Nat → List TrainEvent × Bool
  | none => (body, false)
  | some k => if k < body.length then (body.take k, true) else (body, false)

/-- ModelWrangler.train with its try/except wrapper (lines 246 to 254): a
pending KeyboardInterrupt is caught by the single except clause at the top
of the call, the force-exit message is printed, and the call returns
normally with whatever the loop had already executed. -/
def ModelWrangler.train_call (num_epoch batch_size nb : Nat)
    (interrupt_at : Option Nat) : PyOutcome :=
  match run_body (ModelWrangler.train num_epoch batch_size nb) interrupt_at with
  | (evs, false) => PyOutcome.normalReturn evs []
  | (evs, true) => PyOutcome.normalReturn evs ["Force-exiting training."]

/-- os.makedirs over a filesystem modelled as the list of existing
directories: raises OSError when the directory already exists. -/
def os_makedirs (fs : List String) (p : String) : Except String (List String) :=
  if fs.contains p then Except.error "OSError: File exists" else Except.ok (p :: fs)

/-- make_dir (tf_models.py lines 31 to 39): call os.makedirs and catch
OSError, logging instead of propagating, so a pre-existing directory leaves
the filesystem unchanged and raises nothing. -/
def make_dir (fs : List String) (p : String) : List String :=
  match os_makedirs fs p with
  | Except.ok fs2 => fs2
  | Except.error _ => fs

/-- Directory side effect of BaseNetworkParams.__init__ (tf_models.py lines
107 to 108): make_dir on the artifact path and then on the derived
tensorboard log path, for the params object built from the given kwargs. -/
def params_init_dirs (fs : List String) (kw : List (String × Val)) : List String :=
  let p := DenseAutoencoderParams.init kw
  make_dir (make_dir fs p.path) p.tb_log_path

/-- Attribute value of a live params object: still a LayerConfig instance,
or already plain data. -/
inductive AttrVal
  | config (c : LayerConfig)
  | plain (v : Val)
deriving DecidableEq

/-- BaseNetworkParams.save (tf_models.py lines 114 to 128) acting on the
live attribute dictionary: vars(self) is the instance dictionary itself,
and the loop replaces every attribute holding a LayerConfig with the plain
field mapping of that config before dumping, so the replacement is visible
on the object after save returns. -/
def BaseNetworkParams.save_effect (obj : List (String × AttrVal)) :
    List (String × AttrVal) :=
  obj.map (fun e =>
    match e.2 with
    | AttrVal.config c => (e.1, AttrVal.plain (Val.vDict (LayerConfig.toDict c)))
    | AttrVal.plain v => (e.1, AttrVal.plain v))

/-- Python max with a key function over a list of candidate paths, where the
key os.path.getctime raises OSError for a path that does not exist.  Keys
are evaluated left to right and a later candidate replaces the running
maximum only when its key is strictly greater, as Python max does. -/
def pyMaxCtimeFrom (ctime : String → Option Nat) :
    String → Nat → List String → Except String String
  | best, _, [] => Except.ok best
  | best, bestK, x :: xs =>
      match ctime x with
      | none => Except.error ("OSError: " ++ x)
      | some k =>
          if bestK < k then pyMaxCtimeFrom ctime x k xs
          else pyMaxCtimeFrom ctime best bestK xs

/-- Python max(iterable, key=os.path.getctime) over an iterable of paths. -/
def pyMaxCtime (ctime : String → Option Nat) : List String → Except String String
  | [] => Except.error "ValueError: max() arg is an empty sequence"
  | x :: xs =>
      match ctime x with
      | none => Except.error ("OSError: " ++ x)
      | some k => pyMaxCtimeFrom ctime x k xs

/-- ModelParams.find_metagraph (model_wrangler/model_wrangler.py lines 56
to 61): meta_list is the literal string path/*.meta, never expanded by
glob, and max iterates over that string, so the candidates handed to
os.path.getctime are the single characters of the pattern string. -/
def ModelParams.find_metagraph (ctime : String → Option Nat) (path : String) :
    Except String String :=
  let meta_list := joinPath path "*.meta"
  pyMaxCtime ctime (meta_list.toList.map (fun c => String.mk [c]))

/-- True when a file name ends in .meta, which is what the glob pattern
*.meta would match. -/
def endsWithMeta (s : String) : Bool :=
  s.toList.reverse.take 5 == ['a', 't', 'e', 'm', '.']

/-- The behavior the claim describes for find_metagraph: among the files
under the model path whose name matches *.meta, the one with the greatest
creation time. -/
def newestMetaFile (ctime : String → Option Nat) (files : List String) :
    Option String :=
  (files.filter (fun f => endsWithMeta f)).foldl
    (fun acc f =>
      match acc with
      | none => some f
      | some b =>
          match ctime b, ctime f with
          | some bk, some k => if bk < k then some f else some b
          | none, some _ => some f
          | _, none => acc)
    none

/-- Concrete filesystem for the find_metagraph counterexample: the model
path newmodel holds exactly one checkpoint-structure file. -/
def exampleCtime : String → Option Nat := fun s =>
  if s = "newmodel/ckpt.meta" then some 5 else none

/-- Mean of the squared entries of column j over the batch axis, as
np.mean(grad_wrt_input_vals ** 2, axis=0) computes it. -/
def squaredColumnMean (grads : List (List ℚ)) (j : Nat) : ℚ :=
  ((grads.map (fun row => (row.getD j 0) ^ 2)).sum) / (grads.length : ℚ)

/-- ModelWrangler.feature_importance (lines 174 to 202) after the engine
returned the gradient of the loss with respect to the input as one row per
batch element: np.mean(grad ** 2, axis=0, keepdims=True), whose keepdims
flag keeps the collapsed batch axis, giving a 1 by in_size array. -/
def feature_importance (grad_vals : List (List ℚ)) : List (List ℚ) :=
  [(List.range (grad_vals.headD []).length).map
    (fun j => squaredColumnMean grad_vals j)]

/-- Recognizes an optimizer step executed with the training flag true. -/
def isTrainStepTrue : TrainEvent → Bool
  | TrainEvent.trainStep true => true
  | _ => false

/-- Recognizes an optimizer step executed with the training flag false. -/
def isTrainStepFalse : TrainEvent → Bool
  | TrainEvent.trainStep false => true
  | _ => false

/-- Recognizes the request for class-balanced batches of size b. -/
def isBalancedReq (b : Nat) : TrainEvent → Bool :=
  fun ev => ev == TrainEvent.balancedBatchesRequested b

/-- A concrete LayerConfig, built from an empty override mapping. -/
def exampleConfig : LayerConfig := LayerConfig.ofKwargs []

/-!
Theorems: the claims of the specification, settled against the embedding
above, together with the helper lemmas their proofs use.
-/

/-- Rebuilding a LayerConfig from its own field mapping gives the config
back: the serialized form loses no field. -/
theorem LayerConfig.ofKwargs_toDict (c : LayerConfig) :
    LayerConfig.ofKwargs (LayerConfig.toDict c) = c := by
  rcases c with ⟨act, bias, reg, bn, dr⟩
  cases act <;> cases reg <;> cases dr <;> rfl

/-- Reconstructing params from a dump restores every attribute from the
dumped value, with the two derived path attributes recomputed from path and
the stage options re-promoted from their flattened mappings. -/
theorem init_save_dump (p : DenseAutoencoderParams) :
    DenseAutoencoderParams.init (DenseAutoencoderParams.save_dump p) =
      { verb := p.verb
      , path := p.path
      , meta_filename := joinPath p.path "saver-meta"
      , tb_log_path := joinPath p.path "tb_log"
      , batch_size := p.batch_size
      , num_epochs := p.num_epochs
      , learning_rate := p.learning_rate
      , name := p.name
      , in_size := p.in_size
      , encode_nodes := p.encode_nodes
      , encode_params := LayerConfig.ofKwargs (LayerConfig.toDict p.encode_params)
      , decode_nodes := p.decode_nodes
      , decode_params := LayerConfig.ofKwargs (LayerConfig.toDict p.decode_params)
      , bottleneck_dim := p.bottleneck_dim
      , bottleneck_params := LayerConfig.ofKwargs (LayerConfig.toDict p.bottleneck_params)
      , output_params := LayerConfig.ofKwargs (LayerConfig.toDict p.output_params)
      , holdout_prop := p.holdout_prop } := rfl

/-- Claim C2: for every ArchitectureParams p, deserializing the structured
params file written by p.save() reproduces every plain-data field of p
exactly; nested LayerOption instances are written as plain mappings, so
load(save(x)) equals x for all plain-data fields.  Params objects arise
from construction over kwargs, so the round trip is stated over every
constructible params object. -/
theorem C2_params_roundtrip (kw : List (String × Val)) :
    DenseAutoencoderParams.init
        (DenseAutoencoderParams.save_dump (DenseAutoencoderParams.init kw)) =
      DenseAutoencoderParams.init kw := by
  rw [init_save_dump, LayerConfig.ofKwargs_toDict, LayerConfig.ofKwargs_toDict,
    LayerConfig.ofKwargs_toDict, LayerConfig.ofKwargs_toDict]
  rfl

/-- Claim C4: for every layer configuration the assembled stage stack has
exactly the fixed order, dense layers transform, batchnorm, dropout;
convolutional encode layers transform, batchnorm, pool, dropout; decode
layers transform, batchnorm, unpool, unstride, dropout; each optional stage
present iff its option is set, with a dropout_rate of 0 or None and a
pool_size of 0 or None omitting the corresponding stage entirely. -/
theorem C4_stage_order_contract (d : LayerConfig) (c : ConvLayerConfig) :
    make_dense_layer_ops d =
        [StageOp.transform, StageOp.batchnorm, StageOp.dropout].filter (densePresent d) ∧
    make_conv_layer_ops c =
        [StageOp.transform, StageOp.batchnorm, StageOp.pool,
          StageOp.dropout].filter (convPresent c) ∧
    make_deconv_layer_ops c =
        [StageOp.transform, StageOp.batchnorm, StageOp.unpool, StageOp.unstride,
          StageOp.dropout].filter (deconvPresent c) := by
  refine ⟨?_, ?_, ?_⟩
  · cases hb : d.batchnorm <;> cases hd : truthyRat d.dropout_rate <;>
      simp [make_dense_layer_ops, densePresent, hb, hd]
  · cases hb : c.batchnorm <;> cases hp : truthyNat c.pool_size <;>
      cases hd : truthyRat c.dropout_rate <;>
      simp [make_conv_layer_ops, convPresent, hb, hp, hd]
  · by_cases hs : c.strides = 0 <;> cases hb : c.batchnorm <;>
      cases hp : truthyNat c.pool_size <;> cases hd : truthyRat c.dropout_rate <;>
      simp [make_deconv_layer_ops, deconvPresent, hb, hp, hd, hs]

/-- The enumerate loop of the dense autoencoder encoder and decoder stacks
appends one labelled dense stage per node count, indexed from the starting
index. -/
theorem buildDenseChain_spine (cfg : LayerConfig) (lbl : String) (ns : List Nat) :
    ∀ (idx : Nat) (t : Tensor),
      Tensor.spine (buildDenseChain cfg lbl ns idx t) =
        Tensor.spine t ++
          (List.enumFrom idx ns).map
            (fun en => SpineNode.denseNode (lbl ++ toString en.1) en.2 cfg) := by
  induction ns with
  | nil => intro idx t; simp [buildDenseChain, List.enumFrom]
  | cons n rest ih =>
      intro idx t
      rw [buildDenseChain, ih]
      simp [Tensor.spine, List.enumFrom]

/-- Claim C1: constructing the dense-autoencoder wrangler facade yields an
assembled network whose graph is an input placeholder of shape batch by
in_size, one dense encode stage per entry of encode_nodes, one dense
bottleneck stage of size bottleneck_dim, one dense decode stage per entry
of decode_nodes, and one dense output stage fitted to the declared shape of
the target placeholder, with scalar loss the mean-squared-error of target
and output. -/
theorem C1_dense_autoencoder_graph (p : DenseAutoencoderParams) :
    Tensor.spine (DenseAutoencoder.construct p).output =
        [SpineNode.inputNode "input" [none, some p.in_size]] ++
          (List.enumFrom 0 p.encode_nodes).map
            (fun en => SpineNode.denseNode ("encode_" ++ toString en.1) en.2
              p.encode_params) ++
          [SpineNode.denseNode "bottleneck" p.bottleneck_dim p.bottleneck_params] ++
          (List.enumFrom 0 p.decode_nodes).map
            (fun en => SpineNode.denseNode ("decode_" ++ toString en.1) en.2
              p.decode_params) ++
          [SpineNode.denseNode "output_layer" p.in_size p.output_params] ++
          [SpineNode.fitNode [none, some p.in_size]] ∧
    (DenseAutoencoder.construct p).target =
        Tensor.placeholder "target" [none, some p.in_size] ∧
    (DenseAutoencoder.construct p).loss =
        LossNode.mse (DenseAutoencoder.construct p).target
          (DenseAutoencoder.construct p).output ∧
    (DenseAutoencoder.construct p).input =
        Tensor.placeholder "input" [none, some p.in_size] := by
  refine ⟨?_, rfl, rfl, rfl⟩
  simp [DenseAutoencoder.construct, DenseAutoencoderModel.setup_layers,
    buildDenseChain_spine, Tensor.spine, Tensor.shape]

/-- Claim C5 evidence: find_metagraph never looks at the files under the
model path.  On a filesystem whose model directory holds exactly one
checkpoint-structure file, the code fails with an OSError on the first
character of the un-expanded glob string, while the newest matching meta
file the claim describes exists and is unique. -/
theorem C5_find_metagraph_glob_bug :
    ModelParams.find_metagraph exampleCtime "newmodel" =
        Except.error "OSError: n" ∧
    newestMetaFile exampleCtime ["newmodel/ckpt.meta", "newmodel/notes.txt"] =
        some "newmodel/ckpt.meta" := by
  exact ⟨rfl, rfl⟩

/-- Claim C6 evidence: constructing the baseline network fails because
setup_layers reads self.input before it is assigned, and even with that
attribute supplied the scalar loss is wired to the target placeholder and
the input placeholder, not to the pre-activation output of the dense
projection. -/
theorem C6_baseline_loss_miswired :
    BaseNetwork.construct 10 3 = Except.error "AttributeError: input" ∧
    BaseNetwork.setup_layers (some (Tensor.placeholder "input" [none, some 10])) 10 3 =
        Except.ok (Tensor.placeholder "input" [none, some 10],
          Tensor.denseRaw "output" 3 (Tensor.placeholder "input" [none, some 10]),
          Tensor.placeholder "target" [none, some 3],
          LossNode.sigmoidCe (Tensor.placeholder "target" [none, some 3])
            (Tensor.placeholder "input" [none, some 10])) ∧
    LossNode.sigmoidCe (Tensor.placeholder "target" [none, some 3])
        (Tensor.placeholder "input" [none, some 10]) ≠
      LossNode.sigmoidCe (Tensor.placeholder "target" [none, some 3])
        (Tensor.denseRaw "output" 3 (Tensor.placeholder "input" [none, some 10])) := by
  refine ⟨rfl, rfl, ?_⟩
  simp

/-- Claim C7 counterexample: for a gradient batch with three features, the
value feature_importance returns has length 1, not in_size, because the
keepdims flag keeps the collapsed batch axis. -/
theorem C7_counterexample_importance_shape :
    (feature_importance [[1, 2, 3], [0, 1, 2]]).length = 1 ∧
    (feature_importance [[1, 2, 3], [0, 1, 2]]).length ≠ 3 := by
  exact ⟨rfl, by decide⟩

/-- Claim C7 amended: feature_importance returns a 1 by in_size row matrix,
whose single row has one non-negative squared-gradient average per input
feature. -/
theorem C7_importance_row_matrix (grads : List (List ℚ)) (m : Nat)
    (hrect : ∀ row ∈ grads, row.length = m) (hne : grads ≠ []) :
    (feature_importance grads).length = 1 ∧
    ∀ row ∈ feature_importance grads, row.length = m ∧ ∀ x ∈ row, 0 ≤ x := by
  refine ⟨rfl, ?_⟩
  intro row hrow
  have hrow2 : row = (List.range (grads.headD []).length).map
      (fun j => squaredColumnMean grads j) := by
    simpa [feature_importance] using hrow
  subst hrow2
  constructor
  · simp only [List.length_map, List.length_range]
    cases grads with
    | nil => exact absurd rfl hne
    | cons g gs => exact hrect g (by simp)
  · intro x hx
    obtain ⟨j, hj, hxe⟩ := List.mem_map.mp hx
    rw [← hxe]
    unfold squaredColumnMean
    apply div_nonneg
    · apply List.sum_nonneg
      intro y hy
      obtain ⟨r, hr, hye⟩ := List.mem_map.mp hy
      rw [← hye]
      exact sq_nonneg _
    · exact Nat.cast_nonneg _

/-- Witness for C7_importance_row_matrix at a concrete 2 by 2 gradient
batch. -/
theorem C7_importance_witness :
    (feature_importance [[1, 2], [3, 4]]).length = 1 ∧
    ∀ row ∈ feature_importance [[1, 2], [3, 4]], row.length = 2 ∧ ∀ x ∈ row, 0 ≤ x :=
  C7_importance_row_matrix [[1, 2], [3, 4]] 2 (by decide) (by decide)

/-- The batch loop writes no checkpoint events. -/
theorem run_epoch_from_no_checkpoint (r : Nat) :
    ∀ c, (run_epoch_from c r).filterMap checkpointTag = [] := by
  induction r with
  | zero => intro c; simp [run_epoch_from]
  | succ n ih =>
      intro c
      by_cases h : (c + 1) % 100 = 0 <;>
        simp [run_epoch_from, h, checkpointTag, ih]

/-- The epoch loop writes exactly one checkpoint per epoch, tagged with the
consecutive epoch indices from the starting epoch. -/
theorem train_epochs_checkpoints (b nb r : Nat) :
    ∀ ep, (train_epochs b nb ep r).filterMap checkpointTag = List.range' ep r := by
  induction r with
  | zero => intro ep; simp [train_epochs, List.range']
  | succ n ih =>
      intro ep
      simp [train_epochs, ModelWrangler.run_epoch, List.filterMap_append,
        run_epoch_from_no_checkpoint, checkpointTag, ih, List.range']

/-- Every batch of the loop contributes exactly one optimizer step with the
training flag true. -/
theorem run_epoch_from_count_true (r : Nat) :
    ∀ c, (run_epoch_from c r).countP isTrainStepTrue = r := by
  induction r with
  | zero => intro c; simp [run_epoch_from]
  | succ n ih =>
      intro c
      by_cases h : (c + 1) % 100 = 0 <;>
        simp [run_epoch_from, h, List.countP_cons, List.countP_append,
          isTrainStepTrue, ih, Nat.add_comm]

/-- The batch loop never runs an optimizer step with the training flag
false. -/
theorem run_epoch_from_count_false (r : Nat) :
    ∀ c, (run_epoch_from c r).countP isTrainStepFalse = 0 := by
  induction r with
  | zero => intro c; simp [run_epoch_from]
  | succ n ih =>
      intro c
      by_cases h : (c + 1) % 100 = 0 <;>
        simp [run_epoch_from, h, List.countP_cons, List.countP_append,
          isTrainStepFalse, ih]

/-- The batch loop requests balanced batches zero further times. -/
theorem run_epoch_from_count_balanced (b : Nat) (r : Nat) :
    ∀ c, (run_epoch_from c r).countP (isBalancedReq b) = 0 := by
  induction r with
  | zero => intro c; simp [run_epoch_from]
  | succ n ih =>
      intro c
      by_cases h : (c + 1) % 100 = 0 <;>
        simp [run_epoch_from, h, List.countP_cons, List.countP_append,
          isBalancedReq, ih]

/-- The batch loop logs one holdout evaluation per full hundred batches. -/
theorem run_epoch_from_count_holdout (r : Nat) :
    ∀ c, (run_epoch_from c r).countP isHoldoutEval = (c + r) / 100 - c / 100 := by
  induction r with
  | zero => intro c; simp [run_epoch_from]
  | succ n ih =>
      intro c
      by_cases h : (c + 1) % 100 = 0
      · simp [run_epoch_from, h, List.countP_cons, List.countP_append,
          isHoldoutEval, ih]
        omega
      · simp [run_epoch_from, h, List.countP_cons, List.countP_append,
          isHoldoutEval, ih]
        omega

/-- Within an epoch of nb batches every holdout evaluation is well placed:
flag false, counter a positive multiple of 100, counter at most nb. -/
theorem run_epoch_from_no_bad_holdout (nb r : Nat) :
    ∀ c, c + r ≤ nb → (run_epoch_from c r).countP (isBadHoldoutEval nb) = 0 := by
  induction r with
  | zero => intro c _; simp [run_epoch_from]
  | succ n ih =>
      intro c hle
      have hstep : isBadHoldoutEval nb (TrainEvent.trainStep true) = false := rfl
      have hrest : (run_epoch_from (c + 1) n).countP (isBadHoldoutEval nb) = 0 :=
        ih (c + 1) (by omega)
      by_cases h : (c + 1) % 100 = 0
      · have hbad : isBadHoldoutEval nb (TrainEvent.holdoutEval (c + 1) false) = false := by
          simp [isBadHoldoutEval, h]
          omega
        simp [run_epoch_from, h, List.countP_cons, List.countP_append,
          hstep, hbad, hrest]
      · simp [run_epoch_from, h, List.countP_cons, List.countP_append,
          hstep, hrest]

/-- Counting over the epoch loop for predicates that ignore checkpoints:
each of the r epochs contributes the count of one epoch trace. -/
theorem train_epochs_countP (p : TrainEvent → Bool) (b nb r : Nat)
    (hcp : ∀ t, p (TrainEvent.checkpointSaved t) = false) :
    ∀ ep, (train_epochs b nb ep r).countP p =
      r * (ModelWrangler.run_epoch b nb).countP p := by
  induction r with
  | zero => intro ep; simp [train_epochs]
  | succ n ih =>
      intro ep
      simp [train_epochs, List.countP_append, List.countP_cons, hcp, ih]
      ring

/-- Claim C3: train wraps the data in a dataset provider with holdout
fraction 0.1, runs exactly num_epochs epochs, each epoch requesting
class-balanced batches of size batch_size and executing one optimizer step
per batch with the training flag true, logs a holdout evaluation with the
training flag false at every 100th batch of the epoch and nowhere else, and
persists one checkpoint per epoch tagged with that epoch index. -/
theorem C3_train_contract (e b nb : Nat) :
    (ModelWrangler.train e b nb).head? =
        some (TrainEvent.datasetCreated (1 / 10) true) ∧
    (ModelWrangler.train e b nb).filterMap checkpointTag = List.range e ∧
    (ModelWrangler.train e b nb).countP isTrainStepTrue = e * nb ∧
    (ModelWrangler.train e b nb).countP isTrainStepFalse = 0 ∧
    (ModelWrangler.train e b nb).countP (isBalancedReq b) = e ∧
    (ModelWrangler.train e b nb).countP isHoldoutEval = e * (nb / 100) ∧
    (ModelWrangler.train e b nb).countP (isBadHoldoutEval nb) = 0 := by
  refine ⟨rfl, ?_, ?_, ?_, ?_, ?_, ?_⟩
  · simp [ModelWrangler.train, checkpointTag, train_epochs_checkpoints,
      List.range_eq_range']
  · have h := train_epochs_countP isTrainStepTrue b nb e (fun t => rfl) 0
    simp [ModelWrangler.train, List.countP_cons, isTrainStepTrue, h,
      ModelWrangler.run_epoch, run_epoch_from_count_true]
  · have h := train_epochs_countP isTrainStepFalse b nb e (fun t => rfl) 0
    simp [ModelWrangler.train, List.countP_cons, isTrainStepFalse, h,
      ModelWrangler.run_epoch, run_epoch_from_count_false]
  · have h := train_epochs_countP (isBalancedReq b) b nb e (fun t => rfl) 0
    simp [ModelWrangler.train, List.countP_cons, h,
      ModelWrangler.run_epoch, run_epoch_from_count_balanced, isBalancedReq]
  · have h := train_epochs_countP isHoldoutEval b nb e (fun t => rfl) 0
    simp [ModelWrangler.train, List.countP_cons, isHoldoutEval, h,
      ModelWrangler.run_epoch, run_epoch_from_count_holdout]
  · have h := train_epochs_countP (isBadHoldoutEval nb) b nb e (fun t => rfl) 0
    simp [ModelWrangler.train, List.countP_cons, isBadHoldoutEval, h,
      ModelWrangler.run_epoch, run_epoch_from_no_bad_holdout nb nb 0 (by omega)]

/-- Claim C8: a user-triggered interrupt during train is caught exactly once
at the top of the training call, the loop exits cleanly and control returns
to the caller without re-raising, and the progress already executed is kept,
the call returning the unrolled prefix of the full training trace. -/
theorem C8_interrupt_graceful (e b nb k : Nat) :
    PyOutcome.isRaise (ModelWrangler.train_call e b nb (some k)) = false ∧
    PyOutcome.events (ModelWrangler.train_call e b nb (some k)) =
        (ModelWrangler.train e b nb).take k ∧
    PyOutcome.isRaise (ModelWrangler.train_call e b nb none) = false ∧
    PyOutcome.events (ModelWrangler.train_call e b nb none) =
        ModelWrangler.train e b nb := by
  refine ⟨?_, ?_, rfl, rfl⟩
  · unfold ModelWrangler.train_call run_body
    by_cases h : k < (ModelWrangler.train e b nb).length <;>
      simp [h, PyOutcome.isRaise]
  · unfold ModelWrangler.train_call run_body
    by_cases h : k < (ModelWrangler.train e b nb).length
    · simp [h, PyOutcome.events]
    · simp [h, PyOutcome.events]
      exact Nat.le_of_not_lt h

/-- make_dir leaves the requested directory present. -/
theorem make_dir_mem (fs : List String) (p : String) :
    (make_dir fs p).contains p = true := by
  unfold make_dir os_makedirs
  cases h : fs.contains p
  · simp [h]
  · simp [h]
    simpa using h

/-- make_dir keeps every directory that already existed. -/
theorem make_dir_preserves (fs : List String) (p q : String)
    (h : fs.contains q = true) : (make_dir fs p).contains q = true := by
  have hm : q ∈ fs := by simpa using h
  unfold make_dir os_makedirs
  cases hc : fs.contains p <;> simp [hm]

/-- Claim C9: the artifact directory and the derived log directory are
created as a side effect of params construction, and a pre-existing
directory is never an error: make_dir on an existing path returns with the
filesystem unchanged, and after construction both directories exist. -/
theorem C9_dir_creation_idempotent (fs : List String) (kw : List (String × Val))
    (hpre : fs.contains (DenseAutoencoderParams.init kw).path = true) :
    make_dir fs (DenseAutoencoderParams.init kw).path = fs ∧
    (params_init_dirs fs kw).contains (DenseAutoencoderParams.init kw).path = true ∧
    (params_init_dirs fs kw).contains
        (DenseAutoencoderParams.init kw).tb_log_path = true := by
  refine ⟨?_, ?_, ?_⟩
  · have hm : (DenseAutoencoderParams.init kw).path ∈ fs := by simpa using hpre
    unfold make_dir os_makedirs
    simp [hm]
  · exact make_dir_preserves _ _ _ (make_dir_mem fs _)
  · exact make_dir_mem _ _

/-- Witness for C9_dir_creation_idempotent: the default model path already
exists on the filesystem. -/
theorem C9_dir_witness :
    make_dir ["./autoenc"] (DenseAutoencoderParams.init []).path = ["./autoenc"] ∧
    (params_init_dirs ["./autoenc"] []).contains
        (DenseAutoencoderParams.init []).path = true ∧
    (params_init_dirs ["./autoenc"] []).contains
        (DenseAutoencoderParams.init []).tb_log_path = true :=
  C9_dir_creation_idempotent ["./autoenc"] [] (by decide)

/-- After save every attribute of the live dictionary holds plain data. -/
theorem save_effect_plain (obj : List (String × AttrVal)) :
    ∀ x ∈ BaseNetworkParams.save_effect obj, ∃ v, x.2 = AttrVal.plain v := by
  intro x hx
  obtain ⟨a, ha, hae⟩ := List.mem_map.mp hx
  rw [← hae]
  cases h : a.2 <;> simp [h]

/-- Claim C10: save is not read-only on the params object: every attribute
that held a LayerConfig instance holds its plain field mapping after save
returns, so the live object differs from its pre-save state whenever such
an attribute exists. -/
theorem C10_save_mutates_params (obj : List (String × AttrVal)) (k : String)
    (c : LayerConfig) (h : (k, AttrVal.config c) ∈ obj) :
    (k, AttrVal.plain (Val.vDict (LayerConfig.toDict c))) ∈
        BaseNetworkParams.save_effect obj ∧
    BaseNetworkParams.save_effect obj ≠ obj := by
  constructor
  · exact List.mem_map.mpr ⟨(k, AttrVal.config c), h, rfl⟩
  · intro heq
    have h2 := h
    rw [← heq] at h2
    obtain ⟨v, hv⟩ := save_effect_plain obj _ h2
    exact AttrVal.noConfusion hv

/-- Witness for C10_save_mutates_params: a params object holding one stage
option attribute as a LayerConfig. -/
theorem C10_save_mutates_witness :
    ("encode_params", AttrVal.plain (Val.vDict (LayerConfig.toDict exampleConfig))) ∈
        BaseNetworkParams.save_effect [("encode_params", AttrVal.config exampleConfig)] ∧
    BaseNetworkParams.save_effect [("encode_params", AttrVal.config exampleConfig)] ≠
        [("encode_params", AttrVal.config exampleConfig)] :=
  C10_save_mutates_params [("encode_params", AttrVal.config exampleConfig)]
    "encode_params" exampleConfig (by simp)
